import Mathlib

/-!
Verification development for the replicated-state core of web-nexus-cms
(crate web-nexus-state, file src/state/src/lib.rs, with entity records from
crate web-nexus-contracts, file src/contracts/src/lib.rs).

Modelling conventions:
* Rust HashMap<String, T> collections are embedded denotationally as partial
  functions String -> Option T (a HashMap is exactly a finite partial map with
  no observable order; insert/remove/lookup become pointwise updates).
* Rust i64 / i32 fields are Int; the u64 replica clock is Nat (the code only
  ever adds 1 and takes max; Rust overflow on u64 `+= 1` is a panic in debug
  builds, so non-panicking executions are the ones modelled).
* `chrono::Utc::now().timestamp()` inside AppState::merge is modelled by an
  explicit time parameter `now : Int` threaded into merge.
* Methods taking `&mut self` become functions AppState -> ... -> AppState;
  methods returning Result<(), SyncError> return Except SyncError AppState.
* For the JSON codec (serialize_state / deserialize_state, which go through
  serde_json), the serialized view of the replica is AppStateData, whose
  collections are the entry lists of the HashMaps, and the byte level is
  modelled at the JSON-document level by the inductive Json (numbers are the
  integers occurring in this data model).
-/

/-- JSON document model, standing for serde_json::Value (src/contracts Site.config)
and for the JSON documents produced and consumed by serialize_state and
deserialize_state in src/state/src/lib.rs. -/
inductive Json where
  | null : Json
  | bool (b : Bool) : Json
  | num (n : Int) : Json
  | str (s : String) : Json
  | arr (elems : List Json) : Json
  | obj (fields : List (String × Json)) : Json

/-- ShowStatus from src/contracts/src/lib.rs. -/
inductive ShowStatus where
  | Upcoming
  | Live
  | Completed
  | Cancelled
deriving DecidableEq, Repr

/-- Show from src/contracts/src/lib.rs. -/
structure Show where
  id : String
  site_id : String
  title : String
  venue : String
  address : Option String
  date : Int
  start_time : String
  ticket_url : Option String
  description : Option String
  status : ShowStatus
  created_by : String
  created_at : Int
  updated_at : Int
deriving DecidableEq, Repr

/-- Song from src/contracts/src/lib.rs. -/
structure Song where
  id : String
  site_id : String
  title : String
  artist : Option String
  genres : List String
  duration_seconds : Option Int
  is_original : Bool
  musical_key : Option String
  notes : Option String
  created_at : Int
deriving DecidableEq, Repr

/-- ImageDimensions from src/contracts/src/lib.rs. -/
structure ImageDimensions where
  width : Int
  height : Int
deriving DecidableEq, Repr

/-- Photo from src/contracts/src/lib.rs. -/
structure Photo where
  id : String
  site_id : String
  filename : String
  url_full : String
  url_thumb : String
  size_bytes : Int
  dimensions : ImageDimensions
  alt_text : Option String
  caption : Option String
  tags : List String
  uploaded_at : Int
  uploaded_by : String
deriving DecidableEq, Repr

/-- GalleryVisibility from src/contracts/src/lib.rs. -/
inductive GalleryVisibility where
  | Public
  | Password (password : String)
  | MembersOnly
  | Hidden
deriving DecidableEq, Repr

/-- VideoSource from src/contracts/src/lib.rs. -/
inductive VideoSource where
  | YouTube (video_id : String)
  | Vimeo (video_id : String)
  | Direct (url : String)
  | External (embed_code : String)
deriving DecidableEq, Repr

/-- Video from src/contracts/src/lib.rs. -/
structure Video where
  id : String
  site_id : String
  title : String
  description : Option String
  source : VideoSource
  thumbnail_url : Option String
  duration_seconds : Option Int
  visibility : GalleryVisibility
  view_count : Int
  published_at : Int
deriving DecidableEq, Repr

/-- PostStatus from src/contracts/src/lib.rs. -/
inductive PostStatus where
  | Draft
  | Scheduled
  | Published
  | Archived
deriving DecidableEq, Repr

/-- BlogPost from src/contracts/src/lib.rs. -/
structure BlogPost where
  id : String
  site_id : String
  title : String
  slug : String
  content : String
  excerpt : Option String
  cover_image_id : Option String
  author_id : String
  status : PostStatus
  published_at : Option Int
  created_at : Int
  updated_at : Int
deriving DecidableEq, Repr

/-- SiteStatus from src/contracts/src/lib.rs. -/
inductive SiteStatus where
  | Active
  | Building
  | Failed
  | Suspended
  | Archived
deriving DecidableEq, Repr

/-- Site from src/contracts/src/lib.rs; `config` is a serde_json::Value. -/
structure Site where
  id : String
  slug : String
  name : String
  domain : Option String
  description : Option String
  owner_id : String
  member_ids : List String
  theme : String
  config : Json
  status : SiteStatus
  created_at : Int

/-- Role from src/contracts/src/lib.rs. -/
inductive Role where
  | Admin
  | Content
  | Media
  | ReadOnly
  | SiteEditor (site_id : String)
deriving DecidableEq, Repr

/-- UserStatus from src/contracts/src/lib.rs. -/
inductive UserStatus where
  | Active
  | Pending
  | Suspended
  | Deleted
deriving DecidableEq, Repr

/-- User from src/contracts/src/lib.rs. -/
structure User where
  id : String
  email : String
  name : String
  roles : List Role
  status : UserStatus
  created_at : Int
  last_login : Option Int
deriving DecidableEq, Repr

/-- SyncStatus from src/state/src/lib.rs. -/
inductive SyncStatus where
  | Synced
  | Pending
  | Syncing
  | Failed (reason : String)
deriving DecidableEq, Repr

/-- SyncError from src/state/src/lib.rs. -/
inductive SyncError where
  | Network (msg : String)
  | Serialization (msg : String)
  | MergeConflict (msg : String)
  | Unauthorized
deriving DecidableEq, Repr

/-- Clock type alias from src/state/src/lib.rs (`pub type Clock = u64`). -/
abbrev Clock := Nat

/-- Denotation of a Rust HashMap<String, T>: a partial map on string keys. -/
abbrev StrMap (α : Type) := String → Option α

/-- Denotation of HashMap::insert. -/
def mapInsert (m : StrMap α) (k : String) (v : α) : StrMap α :=
  fun i => if i = k then some v else m i

/-- Denotation of HashMap::remove (the removed value is not used by the code). -/
def mapRemove (m : StrMap α) (k : String) : StrMap α :=
  fun i => if i = k then none else m i

/-- Last-writer-wins merge of one collection, keyed on the timestamp field
`ts`: the denotation of the per-collection loop in AppState::merge
(src/state/src/lib.rs lines 100-109 for shows, 126-135 for posts, and 90-98
for sites with `ts = created_at`). For each identifier held by `other`, the
foreign record replaces the existing one exactly when its timestamp is
strictly greater; identifiers absent from `other` keep the local record. -/
def lwwMerge (ts : α → Int) (m : StrMap α) (other : StrMap α) : StrMap α :=
  fun id =>
    match other id with
    | some v =>
      match m id with
      | some existing => if ts v > ts existing then some v else some existing
      | none => some v
    | none => m id

/-- Unconditional foreign-overwrite merge of one collection: the denotation of
the songs/photos/videos/users loops in AppState::merge (src/state/src/lib.rs
lines 111-124 and 137-140): every foreign record is inserted as-is. -/
def overwriteMerge (m : StrMap α) (other : StrMap α) : StrMap α :=
  fun id =>
    match other id with
    | some v => some v
    | none => m id

/-- AppState from src/state/src/lib.rs, the replica root aggregate. -/
structure AppState where
  sites : StrMap Site
  shows : StrMap Show
  songs : StrMap Song
  photos : StrMap Photo
  videos : StrMap Video
  posts : StrMap BlogPost
  users : StrMap User
  sync_status : SyncStatus
  last_sync : Option Int
  clock : Clock

/-- AppState::new from src/state/src/lib.rs. -/
def AppState.new : AppState :=
  { sites := fun _ => none
    shows := fun _ => none
    songs := fun _ => none
    photos := fun _ => none
    videos := fun _ => none
    posts := fun _ => none
    users := fun _ => none
    sync_status := SyncStatus.Synced
    last_sync := none
    clock := 0 }

/-- AppState::merge from src/state/src/lib.rs (lines 88-148). The wall-clock
read `chrono::Utc::now().timestamp()` is the explicit parameter `now`.
Sites merge by LWW on created_at, shows and posts by LWW on updated_at,
songs/photos/videos/users by unconditional foreign overwrite; then the clock
becomes the max of the two clocks, the status becomes Synced, and last_sync
is set to `now`. -/
def AppState.merge (self : AppState) (other : AppState) (now : Int) : AppState :=
  { sites := lwwMerge Site.created_at self.sites other.sites
    shows := lwwMerge Show.updated_at self.shows other.shows
    songs := overwriteMerge self.songs other.songs
    photos := overwriteMerge self.photos other.photos
    videos := overwriteMerge self.videos other.videos
    posts := lwwMerge BlogPost.updated_at self.posts other.posts
    users := overwriteMerge self.users other.users
    sync_status := SyncStatus.Synced
    last_sync := some now
    clock := max self.clock other.clock }

/-- AppState::add_show from src/state/src/lib.rs (lines 177-182). -/
def AppState.add_show (self : AppState) (shw : Show) : Except SyncError AppState :=
  Except.ok { self with
    clock := self.clock + 1
    shows := mapInsert self.shows shw.id shw
    sync_status := SyncStatus.Pending }

/-- AppState::update_show from src/state/src/lib.rs. -/
def AppState.update_show (self : AppState) (shw : Show) : Except SyncError AppState :=
  Except.ok { self with
    clock := self.clock + 1
    shows := mapInsert self.shows shw.id shw
    sync_status := SyncStatus.Pending }

/-- AppState::delete_show from src/state/src/lib.rs (lines 193-199): it
increments the clock, removes the identifier (HashMap::remove, a no-op on the
collection when the key is absent), sets the status to Pending, and returns Ok. -/
def AppState.delete_show (self : AppState) (show_id : String) : Except SyncError AppState :=
  Except.ok { self with
    clock := self.clock + 1
    shows := mapRemove self.shows show_id
    sync_status := SyncStatus.Pending }

/-- AppState::add_song from src/state/src/lib.rs. -/
def AppState.add_song (self : AppState) (song : Song) : Except SyncError AppState :=
  Except.ok { self with
    clock := self.clock + 1
    songs := mapInsert self.songs song.id song
    sync_status := SyncStatus.Pending }

/-- AppState::update_song from src/state/src/lib.rs. -/
def AppState.update_song (self : AppState) (song : Song) : Except SyncError AppState :=
  Except.ok { self with
    clock := self.clock + 1
    songs := mapInsert self.songs song.id song
    sync_status := SyncStatus.Pending }

/-- AppState::add_photo from src/state/src/lib.rs. -/
def AppState.add_photo (self : AppState) (photo : Photo) : Except SyncError AppState :=
  Except.ok { self with
    clock := self.clock + 1
    photos := mapInsert self.photos photo.id photo
    sync_status := SyncStatus.Pending }

/-- AppState::add_post from src/state/src/lib.rs. -/
def AppState.add_post (self : AppState) (post : BlogPost) : Except SyncError AppState :=
  Except.ok { self with
    clock := self.clock + 1
    posts := mapInsert self.posts post.id post
    sync_status := SyncStatus.Pending }

/-- AppState::needs_sync from src/state/src/lib.rs. -/
def AppState.needs_sync (self : AppState) : Bool :=
  match self.sync_status with
  | SyncStatus.Pending => true
  | _ => false

/-- AppState::mark_syncing from src/state/src/lib.rs. -/
def AppState.mark_syncing (self : AppState) : AppState :=
  { self with sync_status := SyncStatus.Syncing }

/-- Unwrap the Result of a mutation: the mutated state on Ok, the original
replica on Err (every mutation in the source in fact returns Ok). -/
def runMutation (r : AppState) (e : Except SyncError AppState) : AppState :=
  match e with
  | Except.ok s => s
  | Except.error _ => r

/-- One step of the replica lifecycle: any of the public mutations of
src/state/src/lib.rs or a merge with a foreign snapshot at some time. -/
inductive Op where
  | addShow (s : Show)
  | updateShow (s : Show)
  | deleteShow (id : String)
  | addSong (s : Song)
  | updateSong (s : Song)
  | addPhoto (p : Photo)
  | addPost (p : BlogPost)
  | mergeOp (other : AppState) (now : Int)

/-- Apply one lifecycle operation to a replica. -/
def applyOp (r : AppState) : Op → AppState
  | Op.addShow s => runMutation r (r.add_show s)
  | Op.updateShow s => runMutation r (r.update_show s)
  | Op.deleteShow id => runMutation r (r.delete_show id)
  | Op.addSong s => runMutation r (r.add_song s)
  | Op.updateSong s => runMutation r (r.update_song s)
  | Op.addPhoto p => runMutation r (r.add_photo p)
  | Op.addPost p => runMutation r (r.add_post p)
  | Op.mergeOp other now => r.merge other now

/-- Apply a sequence of lifecycle operations from left to right. -/
def applyOps (r : AppState) (ops : List Op) : AppState :=
  ops.foldl applyOp r

/-- The new collection holds exactly the written record at key `k` and agrees
with the old collection everywhere else. -/
def WritesExactly (old new : StrMap α) (k : String) (v : α) : Prop :=
  new k = some v ∧ ∀ i, i ≠ k → new i = old i

/-- The new collection is empty at key `k` and agrees with the old collection
everywhere else. -/
def RemovesExactly (old new : StrMap α) (k : String) : Prop :=
  new k = none ∧ ∀ i, i ≠ k → new i = old i

/-- Concrete show held by the local replica in the worked examples. -/
def exShowL : Show :=
  ⟨"e1", "s1", "Local Show", "Venue L", none, 100, "20:00", none, none,
    ShowStatus.Upcoming, "u1", 10, 5⟩

/-- Concrete foreign show with the same id as exShowL and a strictly greater
updated_at. -/
def exShowF : Show :=
  ⟨"e1", "s1", "Foreign Show", "Venue F", none, 100, "21:00", none, none,
    ShowStatus.Live, "u2", 11, 10⟩

/-- Concrete foreign show whose id is absent from the local replica. -/
def exShowF2 : Show :=
  ⟨"e2", "s1", "Second Foreign Show", "Venue G", none, 200, "19:00", none, none,
    ShowStatus.Upcoming, "u2", 12, 3⟩

/-- Show with updated_at 5 and title A, for the tie analysis. -/
def exShowA : Show :=
  ⟨"e1", "s1", "A", "V", none, 0, "20:00", none, none,
    ShowStatus.Upcoming, "u1", 0, 5⟩

/-- Show with the same id and updated_at as exShowA but a different title. -/
def exShowB : Show :=
  ⟨"e1", "s1", "B", "V", none, 0, "20:00", none, none,
    ShowStatus.Upcoming, "u1", 0, 5⟩

/-- Show with the same id as exShowA and a distinct updated_at. -/
def exShowC : Show :=
  ⟨"e1", "s1", "C", "V", none, 0, "20:00", none, none,
    ShowStatus.Upcoming, "u1", 0, 9⟩

/-- Local song sharing its id with exSongF. -/
def exSongL : Song := ⟨"sg1", "s1", "Song L", none, [], none, true, none, none, 1⟩

/-- Foreign song sharing its id with exSongL. -/
def exSongF : Song := ⟨"sg1", "s1", "Song F", none, [], none, false, none, none, 2⟩

/-- Song held only by the local replica. -/
def exSongOnlyL : Song := ⟨"sgL", "s1", "Only Local", none, [], none, true, none, none, 3⟩

/-- Photo held only by the local replica. -/
def exPhotoL : Photo :=
  ⟨"ph1", "s1", "p.jpg", "/full/p.jpg", "/thumb/p.jpg", 10, ⟨100, 80⟩,
    none, none, [], 5, "u1"⟩

/-- Video held only by the foreign snapshot. -/
def exVideoF : Video :=
  ⟨"v1", "s1", "Vid", none, VideoSource.Direct ("/v.mp4"), none, none,
    GalleryVisibility.Public, 0, 2⟩

/-- Local user sharing its id with exUserF. -/
def exUserL : User := ⟨"u1", "l@example.com", "L", [], UserStatus.Active, 1, none⟩

/-- Foreign user sharing its id with exUserL. -/
def exUserF : User := ⟨"u1", "f@example.com", "F", [Role.Admin], UserStatus.Active, 2, none⟩

/-- Local blog post; its updated_at ties with exPostF. -/
def exPostL : BlogPost :=
  ⟨"p1", "s1", "Post L", "post-l", "local body", none, none, "u1",
    PostStatus.Draft, none, 1, 7⟩

/-- Foreign blog post with the same id and the same updated_at as exPostL. -/
def exPostF : BlogPost :=
  ⟨"p1", "s1", "Post F", "post-f", "foreign body", none, none, "u2",
    PostStatus.Published, some 6, 2, 7⟩

/-- Concrete local replica used by the witnesses. -/
def exLocal : AppState :=
  { AppState.new with
    shows := fun i => if i = "e1" then some exShowL else none
    posts := fun i => if i = "p1" then some exPostL else none
    songs := fun i => if i = "sg1" then some exSongL else
      if i = "sgL" then some exSongOnlyL else none
    photos := fun i => if i = "ph1" then some exPhotoL else none
    users := fun i => if i = "u1" then some exUserL else none
    sync_status := SyncStatus.Pending
    clock := 3 }

/-- Concrete foreign snapshot used by the witnesses. -/
def exForeign : AppState :=
  { AppState.new with
    shows := fun i => if i = "e1" then some exShowF else
      if i = "e2" then some exShowF2 else none
    posts := fun i => if i = "p1" then some exPostF else none
    songs := fun i => if i = "sg1" then some exSongF else none
    videos := fun i => if i = "v1" then some exVideoF else none
    users := fun i => if i = "u1" then some exUserF else none
    clock := 9 }

/-- Snapshot holding only exShowA. -/
def exS1 : AppState :=
  { AppState.new with shows := fun i => if i = "e1" then some exShowA else none }

/-- Snapshot holding only exShowB (same id and timestamp as exShowA). -/
def exS2 : AppState :=
  { AppState.new with shows := fun i => if i = "e1" then some exShowB else none }

/-- Snapshot holding only exShowC (same id as exShowA, distinct timestamp). -/
def exS3 : AppState :=
  { AppState.new with shows := fun i => if i = "e1" then some exShowC else none }

/-- Serde encoding of Option<String>: None is null. -/
def encOptStr : Option String → Json
  | none => Json.null
  | some s => Json.str s

/-- Serde encoding of Option<i64> / Option<i32>. -/
def encOptInt : Option Int → Json
  | none => Json.null
  | some n => Json.num n

/-- Serde encoding of Vec<String>. -/
def encStrList (xs : List String) : Json :=
  Json.arr (xs.map Json.str)

/-- Decode a JSON string. -/
def decStr : Json → Except String String
  | Json.str s => Except.ok s
  | _ => Except.error ("expected string")

/-- Decode a JSON integer. -/
def decInt : Json → Except String Int
  | Json.num n => Except.ok n
  | _ => Except.error ("expected integer")

/-- Decode a JSON boolean. -/
def decBool : Json → Except String Bool
  | Json.bool b => Except.ok b
  | _ => Except.error ("expected boolean")

/-- Decode an optional JSON string (null means None). -/
def decOptStr : Json → Except String (Option String)
  | Json.null => Except.ok none
  | Json.str s => Except.ok (some s)
  | _ => Except.error ("expected string or null")

/-- Decode an optional JSON integer (null means None). -/
def decOptInt : Json → Except String (Option Int)
  | Json.null => Except.ok none
  | Json.num n => Except.ok (some n)
  | _ => Except.error ("expected integer or null")

/-- Decode every element of a JSON array with `dec`, failing on the first
malformed element. -/
def decAll (dec : Json → Except String α) : List Json → Except String (List α)
  | [] => Except.ok []
  | j :: rest =>
    match dec j, decAll dec rest with
    | Except.ok v, Except.ok vs => Except.ok (v :: vs)
    | Except.error e, _ => Except.error e
    | _, Except.error e => Except.error e

/-- Decode a Vec<String>. -/
def decStrList : Json → Except String (List String)
  | Json.arr xs => decAll decStr xs
  | _ => Except.error ("expected array of strings")

/-- Look a field up in the field list of a JSON object. -/
def jLookup (k : String) : List (String × Json) → Option Json
  | [] => none
  | (k2, v) :: rest => if k = k2 then some v else jLookup k rest

/-- Serde encoding of ShowStatus (camelCase variant names). -/
def encShowStatus : ShowStatus → Json
  | ShowStatus.Upcoming => Json.str ("upcoming")
  | ShowStatus.Live => Json.str ("live")
  | ShowStatus.Completed => Json.str ("completed")
  | ShowStatus.Cancelled => Json.str ("cancelled")

/-- Decode a ShowStatus. -/
def decShowStatus : Json → Except String ShowStatus
  | Json.str s =>
    if s = "upcoming" then Except.ok ShowStatus.Upcoming
    else if s = "live" then Except.ok ShowStatus.Live
    else if s = "completed" then Except.ok ShowStatus.Completed
    else if s = "cancelled" then Except.ok ShowStatus.Cancelled
    else Except.error ("unknown show status")
  | _ => Except.error ("expected string show status")

/-- Serde encoding of PostStatus. -/
def encPostStatus : PostStatus → Json
  | PostStatus.Draft => Json.str ("draft")
  | PostStatus.Scheduled => Json.str ("scheduled")
  | PostStatus.Published => Json.str ("published")
  | PostStatus.Archived => Json.str ("archived")

/-- Decode a PostStatus. -/
def decPostStatus : Json → Except String PostStatus
  | Json.str s =>
    if s = "draft" then Except.ok PostStatus.Draft
    else if s = "scheduled" then Except.ok PostStatus.Scheduled
    else if s = "published" then Except.ok PostStatus.Published
    else if s = "archived" then Except.ok PostStatus.Archived
    else Except.error ("unknown post status")
  | _ => Except.error ("expected string post status")

/-- Serde encoding of SiteStatus. -/
def encSiteStatus : SiteStatus → Json
  | SiteStatus.Active => Json.str ("active")
  | SiteStatus.Building => Json.str ("building")
  | SiteStatus.Failed => Json.str ("failed")
  | SiteStatus.Suspended => Json.str ("suspended")
  | SiteStatus.Archived => Json.str ("archived")

/-- Decode a SiteStatus. -/
def decSiteStatus : Json → Except String SiteStatus
  | Json.str s =>
    if s = "active" then Except.ok SiteStatus.Active
    else if s = "building" then Except.ok SiteStatus.Building
    else if s = "failed" then Except.ok SiteStatus.Failed
    else if s = "suspended" then Except.ok SiteStatus.Suspended
    else if s = "archived" then Except.ok SiteStatus.Archived
    else Except.error ("unknown site status")
  | _ => Except.error ("expected string site status")

/-- Serde encoding of UserStatus. -/
def encUserStatus : UserStatus → Json
  | UserStatus.Active => Json.str ("active")
  | UserStatus.Pending => Json.str ("pending")
  | UserStatus.Suspended => Json.str ("suspended")
  | UserStatus.Deleted => Json.str ("deleted")

/-- Decode a UserStatus. -/
def decUserStatus : Json → Except String UserStatus
  | Json.str s =>
    if s = "active" then Except.ok UserStatus.Active
    else if s = "pending" then Except.ok UserStatus.Pending
    else if s = "suspended" then Except.ok UserStatus.Suspended
    else if s = "deleted" then Except.ok UserStatus.Deleted
    else Except.error ("unknown user status")
  | _ => Except.error ("expected string user status")

/-- Serde encoding of GalleryVisibility (externally tagged struct variant). -/
def encGalleryVisibility : GalleryVisibility → Json
  | GalleryVisibility.Public => Json.str ("public")
  | GalleryVisibility.Password p =>
    Json.obj [("password", Json.obj [("password", Json.str p)])]
  | GalleryVisibility.MembersOnly => Json.str ("membersOnly")
  | GalleryVisibility.Hidden => Json.str ("hidden")

/-- Decode a GalleryVisibility. -/
def decGalleryVisibility : Json → Except String GalleryVisibility
  | Json.str s =>
    if s = "public" then Except.ok GalleryVisibility.Public
    else if s = "membersOnly" then Except.ok GalleryVisibility.MembersOnly
    else if s = "hidden" then Except.ok GalleryVisibility.Hidden
    else Except.error ("unknown visibility")
  | Json.obj fs =>
    match jLookup ("password") fs with
    | some (Json.obj fs2) =>
      match jLookup ("password") fs2 with
      | some (Json.str p) => Except.ok (GalleryVisibility.Password p)
      | _ => Except.error ("malformed password visibility")
    | _ => Except.error ("malformed visibility object")
  | _ => Except.error ("expected visibility")

/-- Serde encoding of VideoSource (externally tagged struct variants,
camelCase variant names, snake_case field names). -/
def encVideoSource : VideoSource → Json
  | VideoSource.YouTube v =>
    Json.obj [("youTube", Json.obj [("video_id", Json.str v)])]
  | VideoSource.Vimeo v =>
    Json.obj [("vimeo", Json.obj [("video_id", Json.str v)])]
  | VideoSource.Direct u =>
    Json.obj [("direct", Json.obj [("url", Json.str u)])]
  | VideoSource.External e =>
    Json.obj [("external", Json.obj [("embed_code", Json.str e)])]

/-- Decode a VideoSource. -/
def decVideoSource : Json → Except String VideoSource
  | Json.obj fs =>
    match jLookup ("youTube") fs with
    | some (Json.obj f1) =>
      match jLookup ("video_id") f1 with
      | some (Json.str v) => Except.ok (VideoSource.YouTube v)
      | _ => Except.error ("malformed youTube source")
    | _ =>
      match jLookup ("vimeo") fs with
      | some (Json.obj f2) =>
        match jLookup ("video_id") f2 with
        | some (Json.str v) => Except.ok (VideoSource.Vimeo v)
        | _ => Except.error ("malformed vimeo source")
      | _ =>
        match jLookup ("direct") fs with
        | some (Json.obj f3) =>
          match jLookup ("url") f3 with
          | some (Json.str u) => Except.ok (VideoSource.Direct u)
          | _ => Except.error ("malformed direct source")
        | _ =>
          match jLookup ("external") fs with
          | some (Json.obj f4) =>
            match jLookup ("embed_code") f4 with
            | some (Json.str e) => Except.ok (VideoSource.External e)
            | _ => Except.error ("malformed external source")
          | _ => Except.error ("unknown video source")
  | _ => Except.error ("expected video source object")

/-- Serde encoding of Role. -/
def encRole : Role → Json
  | Role.Admin => Json.str ("admin")
  | Role.Content => Json.str ("content")
  | Role.Media => Json.str ("media")
  | Role.ReadOnly => Json.str ("readOnly")
  | Role.SiteEditor sid =>
    Json.obj [("siteEditor", Json.obj [("site_id", Json.str sid)])]

/-- Decode a Role. -/
def decRole : Json → Except String Role
  | Json.str s =>
    if s = "admin" then Except.ok Role.Admin
    else if s = "content" then Except.ok Role.Content
    else if s = "media" then Except.ok Role.Media
    else if s = "readOnly" then Except.ok Role.ReadOnly
    else Except.error ("unknown role")
  | Json.obj fs =>
    match jLookup ("siteEditor") fs with
    | some (Json.obj fs2) =>
      match jLookup ("site_id") fs2 with
      | some (Json.str sid) => Except.ok (Role.SiteEditor sid)
      | _ => Except.error ("malformed siteEditor role")
    | _ => Except.error ("malformed role object")
  | _ => Except.error ("expected role")

/-- Serde encoding of SyncStatus (no rename attribute, so PascalCase names). -/
def encSyncStatus : SyncStatus → Json
  | SyncStatus.Synced => Json.str ("Synced")
  | SyncStatus.Pending => Json.str ("Pending")
  | SyncStatus.Syncing => Json.str ("Syncing")
  | SyncStatus.Failed reason => Json.obj [("Failed", Json.str reason)]

/-- Decode a SyncStatus. -/
def decSyncStatus : Json → Except String SyncStatus
  | Json.str s =>
    if s = "Synced" then Except.ok SyncStatus.Synced
    else if s = "Pending" then Except.ok SyncStatus.Pending
    else if s = "Syncing" then Except.ok SyncStatus.Syncing
    else Except.error ("unknown sync status")
  | Json.obj fs =>
    match jLookup ("Failed") fs with
    | some (Json.str reason) => Except.ok (SyncStatus.Failed reason)
    | _ => Except.error ("malformed sync status object")
  | _ => Except.error ("expected sync status")

/-- Decode the u64 replica clock (a non-negative JSON integer). -/
def decClock : Json → Except String Clock
  | Json.num n => if 0 ≤ n then Except.ok n.toNat else Except.error ("negative clock")
  | _ => Except.error ("expected integer clock")

/-- Serde encoding of a Show (camelCase field names). -/
def encShow (x : Show) : Json :=
  Json.obj [
    ("id", Json.str x.id),
    ("siteId", Json.str x.site_id),
    ("title", Json.str x.title),
    ("venue", Json.str x.venue),
    ("address", encOptStr x.address),
    ("date", Json.num x.date),
    ("startTime", Json.str x.start_time),
    ("ticketUrl", encOptStr x.ticket_url),
    ("description", encOptStr x.description),
    ("status", encShowStatus x.status),
    ("createdBy", Json.str x.created_by),
    ("createdAt", Json.num x.created_at),
    ("updatedAt", Json.num x.updated_at)]

/-- Decode a Show. -/
def decShow : Json → Except String Show
  | Json.obj fs =>
    match jLookup ("id") fs, jLookup ("siteId") fs, jLookup ("title") fs,
      jLookup ("venue") fs, jLookup ("address") fs, jLookup ("date") fs,
      jLookup ("startTime") fs, jLookup ("ticketUrl") fs,
      jLookup ("description") fs, jLookup ("status") fs,
      jLookup ("createdBy") fs, jLookup ("createdAt") fs,
      jLookup ("updatedAt") fs with
    | some j1, some j2, some j3, some j4, some j5, some j6, some j7, some j8,
      some j9, some j10, some j11, some j12, some j13 =>
      match decStr j1, decStr j2, decStr j3, decStr j4, decOptStr j5,
        decInt j6, decStr j7, decOptStr j8, decOptStr j9, decShowStatus j10,
        decStr j11, decInt j12, decInt j13 with
      | Except.ok f1, Except.ok f2, Except.ok f3, Except.ok f4, Except.ok f5,
        Except.ok f6, Except.ok f7, Except.ok f8, Except.ok f9, Except.ok f10,
        Except.ok f11, Except.ok f12, Except.ok f13 =>
        Except.ok ⟨f1, f2, f3, f4, f5, f6, f7, f8, f9, f10, f11, f12, f13⟩
      | _, _, _, _, _, _, _, _, _, _, _, _, _ => Except.error ("malformed Show field")
    | _, _, _, _, _, _, _, _, _, _, _, _, _ => Except.error ("missing Show field")
  | _ => Except.error ("expected Show object")

/-- Serde encoding of a Song. -/
def encSong (x : Song) : Json :=
  Json.obj [
    ("id", Json.str x.id),
    ("siteId", Json.str x.site_id),
    ("title", Json.str x.title),
    ("artist", encOptStr x.artist),
    ("genres", encStrList x.genres),
    ("durationSeconds", encOptInt x.duration_seconds),
    ("isOriginal", Json.bool x.is_original),
    ("musicalKey", encOptStr x.musical_key),
    ("notes", encOptStr x.notes),
    ("createdAt", Json.num x.created_at)]

/-- Decode a Song. -/
def decSong : Json → Except String Song
  | Json.obj fs =>
    match jLookup ("id") fs, jLookup ("siteId") fs, jLookup ("title") fs,
      jLookup ("artist") fs, jLookup ("genres") fs,
      jLookup ("durationSeconds") fs, jLookup ("isOriginal") fs,
      jLookup ("musicalKey") fs, jLookup ("notes") fs,
      jLookup ("createdAt") fs with
    | some j1, some j2, some j3, some j4, some j5, some j6, some j7, some j8,
      some j9, some j10 =>
      match decStr j1, decStr j2, decStr j3, decOptStr j4, decStrList j5,
        decOptInt j6, decBool j7, decOptStr j8, decOptStr j9, decInt j10 with
      | Except.ok f1, Except.ok f2, Except.ok f3, Except.ok f4, Except.ok f5,
        Except.ok f6, Except.ok f7, Except.ok f8, Except.ok f9, Except.ok f10 =>
        Except.ok ⟨f1, f2, f3, f4, f5, f6, f7, f8, f9, f10⟩
      | _, _, _, _, _, _, _, _, _, _ => Except.error ("malformed Song field")
    | _, _, _, _, _, _, _, _, _, _ => Except.error ("missing Song field")
  | _ => Except.error ("expected Song object")

/-- Serde encoding of ImageDimensions. -/
def encDims (d : ImageDimensions) : Json :=
  Json.obj [("width", Json.num d.width), ("height", Json.num d.height)]

/-- Decode an ImageDimensions. -/
def decDims : Json → Except String ImageDimensions
  | Json.obj fs =>
    match jLookup ("width") fs, jLookup ("height") fs with
    | some (Json.num w), some (Json.num h) => Except.ok ⟨w, h⟩
    | _, _ => Except.error ("malformed dimensions")
  | _ => Except.error ("expected dimensions object")

/-- Serde encoding of a Photo. -/
def encPhoto (x : Photo) : Json :=
  Json.obj [
    ("id", Json.str x.id),
    ("siteId", Json.str x.site_id),
    ("filename", Json.str x.filename),
    ("urlFull", Json.str x.url_full),
    ("urlThumb", Json.str x.url_thumb),
    ("sizeBytes", Json.num x.size_bytes),
    ("dimensions", encDims x.dimensions),
    ("altText", encOptStr x.alt_text),
    ("caption", encOptStr x.caption),
    ("tags", encStrList x.tags),
    ("uploadedAt", Json.num x.uploaded_at),
    ("uploadedBy", Json.str x.uploaded_by)]

/-- Decode a Photo. -/
def decPhoto : Json → Except String Photo
  | Json.obj fs =>
    match jLookup ("id") fs, jLookup ("siteId") fs, jLookup ("filename") fs,
      jLookup ("urlFull") fs, jLookup ("urlThumb") fs,
      jLookup ("sizeBytes") fs, jLookup ("dimensions") fs,
      jLookup ("altText") fs, jLookup ("caption") fs, jLookup ("tags") fs,
      jLookup ("uploadedAt") fs, jLookup ("uploadedBy") fs with
    | some j1, some j2, some j3, some j4, some j5, some j6, some j7, some j8,
      some j9, some j10, some j11, some j12 =>
      match decStr j1, decStr j2, decStr j3, decStr j4, decStr j5, decInt j6,
        decDims j7, decOptStr j8, decOptStr j9, decStrList j10, decInt j11,
        decStr j12 with
      | Except.ok f1, Except.ok f2, Except.ok f3, Except.ok f4, Except.ok f5,
        Except.ok f6, Except.ok f7, Except.ok f8, Except.ok f9, Except.ok f10,
        Except.ok f11, Except.ok f12 =>
        Except.ok ⟨f1, f2, f3, f4, f5, f6, f7, f8, f9, f10, f11, f12⟩
      | _, _, _, _, _, _, _, _, _, _, _, _ => Except.error ("malformed Photo field")
    | _, _, _, _, _, _, _, _, _, _, _, _ => Except.error ("missing Photo field")
  | _ => Except.error ("expected Photo object")

/-- Serde encoding of a Video. -/
def encVideo (x : Video) : Json :=
  Json.obj [
    ("id", Json.str x.id),
    ("siteId", Json.str x.site_id),
    ("title", Json.str x.title),
    ("description", encOptStr x.description),
    ("source", encVideoSource x.source),
    ("thumbnailUrl", encOptStr x.thumbnail_url),
    ("durationSeconds", encOptInt x.duration_seconds),
    ("visibility", encGalleryVisibility x.visibility),
    ("viewCount", Json.num x.view_count),
    ("publishedAt", Json.num x.published_at)]

/-- Decode a Video. -/
def decVideo : Json → Except String Video
  | Json.obj fs =>
    match jLookup ("id") fs, jLookup ("siteId") fs, jLookup ("title") fs,
      jLookup ("description") fs, jLookup ("source") fs,
      jLookup ("thumbnailUrl") fs, jLookup ("durationSeconds") fs,
      jLookup ("visibility") fs, jLookup ("viewCount") fs,
      jLookup ("publishedAt") fs with
    | some j1, some j2, some j3, some j4, some j5, some j6, some j7, some j8,
      some j9, some j10 =>
      match decStr j1, decStr j2, decStr j3, decOptStr j4, decVideoSource j5,
        decOptStr j6, decOptInt j7, decGalleryVisibility j8, decInt j9,
        decInt j10 with
      | Except.ok f1, Except.ok f2, Except.ok f3, Except.ok f4, Except.ok f5,
        Except.ok f6, Except.ok f7, Except.ok f8, Except.ok f9, Except.ok f10 =>
        Except.ok ⟨f1, f2, f3, f4, f5, f6, f7, f8, f9, f10⟩
      | _, _, _, _, _, _, _, _, _, _ => Except.error ("malformed Video field")
    | _, _, _, _, _, _, _, _, _, _ => Except.error ("missing Video field")
  | _ => Except.error ("expected Video object")

/-- Serde encoding of a BlogPost. -/
def encPost (x : BlogPost) : Json :=
  Json.obj [
    ("id", Json.str x.id),
    ("siteId", Json.str x.site_id),
    ("title", Json.str x.title),
    ("slug", Json.str x.slug),
    ("content", Json.str x.content),
    ("excerpt", encOptStr x.excerpt),
    ("coverImageId", encOptStr x.cover_image_id),
    ("authorId", Json.str x.author_id),
    ("status", encPostStatus x.status),
    ("publishedAt", encOptInt x.published_at),
    ("createdAt", Json.num x.created_at),
    ("updatedAt", Json.num x.updated_at)]

/-- Decode a BlogPost. -/
def decPost : Json → Except String BlogPost
  | Json.obj fs =>
    match jLookup ("id") fs, jLookup ("siteId") fs, jLookup ("title") fs,
      jLookup ("slug") fs, jLookup ("content") fs, jLookup ("excerpt") fs,
      jLookup ("coverImageId") fs, jLookup ("authorId") fs,
      jLookup ("status") fs, jLookup ("publishedAt") fs,
      jLookup ("createdAt") fs, jLookup ("updatedAt") fs with
    | some j1, some j2, some j3, some j4, some j5, some j6, some j7, some j8,
      some j9, some j10, some j11, some j12 =>
      match decStr j1, decStr j2, decStr j3, decStr j4, decStr j5,
        decOptStr j6, decOptStr j7, decStr j8, decPostStatus j9,
        decOptInt j10, decInt j11, decInt j12 with
      | Except.ok f1, Except.ok f2, Except.ok f3, Except.ok f4, Except.ok f5,
        Except.ok f6, Except.ok f7, Except.ok f8, Except.ok f9, Except.ok f10,
        Except.ok f11, Except.ok f12 =>
        Except.ok ⟨f1, f2, f3, f4, f5, f6, f7, f8, f9, f10, f11, f12⟩
      | _, _, _, _, _, _, _, _, _, _, _, _ => Except.error ("malformed BlogPost field")
    | _, _, _, _, _, _, _, _, _, _, _, _ => Except.error ("missing BlogPost field")
  | _ => Except.error ("expected BlogPost object")

/-- Serde encoding of a Site; `config` is already a JSON value. -/
def encSite (x : Site) : Json :=
  Json.obj [
    ("id", Json.str x.id),
    ("slug", Json.str x.slug),
    ("name", Json.str x.name),
    ("domain", encOptStr x.domain),
    ("description", encOptStr x.description),
    ("ownerId", Json.str x.owner_id),
    ("memberIds", encStrList x.member_ids),
    ("theme", Json.str x.theme),
    ("config", x.config),
    ("status", encSiteStatus x.status),
    ("createdAt", Json.num x.created_at)]

/-- Decode a Site (any JSON value is accepted for `config`). -/
def decSite : Json → Except String Site
  | Json.obj fs =>
    match jLookup ("id") fs, jLookup ("slug") fs, jLookup ("name") fs,
      jLookup ("domain") fs, jLookup ("description") fs,
      jLookup ("ownerId") fs, jLookup ("memberIds") fs, jLookup ("theme") fs,
      jLookup ("config") fs, jLookup ("status") fs,
      jLookup ("createdAt") fs with
    | some j1, some j2, some j3, some j4, some j5, some j6, some j7, some j8,
      some j9, some j10, some j11 =>
      match decStr j1, decStr j2, decStr j3, decOptStr j4, decOptStr j5,
        decStr j6, decStrList j7, decStr j8, decSiteStatus j10,
        decInt j11 with
      | Except.ok f1, Except.ok f2, Except.ok f3, Except.ok f4, Except.ok f5,
        Except.ok f6, Except.ok f7, Except.ok f8, Except.ok f10,
        Except.ok f11 =>
        Except.ok ⟨f1, f2, f3, f4, f5, f6, f7, f8, j9, f10, f11⟩
      | _, _, _, _, _, _, _, _, _, _ => Except.error ("malformed Site field")
    | _, _, _, _, _, _, _, _, _, _, _ => Except.error ("missing Site field")
  | _ => Except.error ("expected Site object")

/-- Serde encoding of a User. -/
def encUser (x : User) : Json :=
  Json.obj [
    ("id", Json.str x.id),
    ("email", Json.str x.email),
    ("name", Json.str x.name),
    ("roles", Json.arr (x.roles.map encRole)),
    ("status", encUserStatus x.status),
    ("createdAt", Json.num x.created_at),
    ("lastLogin", encOptInt x.last_login)]

/-- Decode a User. -/
def decUser : Json → Except String User
  | Json.obj fs =>
    match jLookup ("id") fs, jLookup ("email") fs, jLookup ("name") fs,
      jLookup ("roles") fs, jLookup ("status") fs, jLookup ("createdAt") fs,
      jLookup ("lastLogin") fs with
    | some j1, some j2, some j3, some (Json.arr j4), some j5, some j6,
      some j7 =>
      match decStr j1, decStr j2, decStr j3, decAll decRole j4,
        decUserStatus j5, decInt j6, decOptInt j7 with
      | Except.ok f1, Except.ok f2, Except.ok f3, Except.ok f4, Except.ok f5,
        Except.ok f6, Except.ok f7 =>
        Except.ok ⟨f1, f2, f3, f4, f5, f6, f7⟩
      | _, _, _, _, _, _, _ => Except.error ("malformed User field")
    | _, _, _, _, _, _, _ => Except.error ("missing User field")
  | _ => Except.error ("expected User object")

/-- The serialized view of a replica: the entry lists of the HashMap
collections of AppState together with the scalar fields, i.e. what serde sees
when it walks the struct in src/state/src/lib.rs. -/
structure AppStateData where
  sites : List (String × Site)
  shows : List (String × Show)
  songs : List (String × Song)
  photos : List (String × Photo)
  videos : List (String × Video)
  posts : List (String × BlogPost)
  users : List (String × User)
  sync_status : SyncStatus
  last_sync : Option Int
  clock : Clock

/-- Serde encoding of a HashMap<String, T>: one JSON object field per entry. -/
def encEntries (enc : α → Json) (xs : List (String × α)) : List (String × Json) :=
  xs.map (fun kv => (kv.1, enc kv.2))

/-- Decode the entries of a JSON object into map entries. -/
def decEntries (dec : Json → Except String α) :
    List (String × Json) → Except String (List (String × α))
  | [] => Except.ok []
  | (k, j) :: rest =>
    match dec j, decEntries dec rest with
    | Except.ok v, Except.ok vs => Except.ok ((k, v) :: vs)
    | Except.error e, _ => Except.error e
    | _, Except.error e => Except.error e

/-- Serde encoding of the whole AppState struct (field names as written in
src/state/src/lib.rs, which has no rename attribute). -/
def encAppState (s : AppStateData) : Json :=
  Json.obj [
    ("sites", Json.obj (encEntries encSite s.sites)),
    ("shows", Json.obj (encEntries encShow s.shows)),
    ("songs", Json.obj (encEntries encSong s.songs)),
    ("photos", Json.obj (encEntries encPhoto s.photos)),
    ("videos", Json.obj (encEntries encVideo s.videos)),
    ("posts", Json.obj (encEntries encPost s.posts)),
    ("users", Json.obj (encEntries encUser s.users)),
    ("sync_status", encSyncStatus s.sync_status),
    ("last_sync", encOptInt s.last_sync),
    ("clock", Json.num (Int.ofNat s.clock))]

/-- Decode an AppState document. -/
def decAppState : Json → Except String AppStateData
  | Json.obj fs =>
    match jLookup ("sites") fs, jLookup ("shows") fs, jLookup ("songs") fs,
      jLookup ("photos") fs, jLookup ("videos") fs, jLookup ("posts") fs,
      jLookup ("users") fs, jLookup ("sync_status") fs,
      jLookup ("last_sync") fs, jLookup ("clock") fs with
    | some (Json.obj o1), some (Json.obj o2), some (Json.obj o3),
      some (Json.obj o4), some (Json.obj o5), some (Json.obj o6),
      some (Json.obj o7), some j8, some j9, some j10 =>
      match decEntries decSite o1, decEntries decShow o2,
        decEntries decSong o3, decEntries decPhoto o4,
        decEntries decVideo o5, decEntries decPost o6,
        decEntries decUser o7, decSyncStatus j8, decOptInt j9,
        decClock j10 with
      | Except.ok f1, Except.ok f2, Except.ok f3, Except.ok f4, Except.ok f5,
        Except.ok f6, Except.ok f7, Except.ok f8, Except.ok f9,
        Except.ok f10 =>
        Except.ok ⟨f1, f2, f3, f4, f5, f6, f7, f8, f9, f10⟩
      | _, _, _, _, _, _, _, _, _, _ => Except.error ("malformed AppState field")
    | _, _, _, _, _, _, _, _, _, _ => Except.error ("missing AppState field")
  | _ => Except.error ("expected AppState object")

/-- serialize_state from src/state/src/lib.rs: serde_json serialization of the
replica. Encoding a valid in-memory replica never fails (string map keys, no
floating-point fields), so the Ok branch of the Rust Result is the whole
function here. -/
def serialize_state (state : AppStateData) : Json :=
  encAppState state

/-- deserialize_state from src/state/src/lib.rs: serde_json deserialization,
with every decode failure wrapped as SyncError::Serialization, mirroring
`.map_err(|e| SyncError::Serialization(e.to_string()))`. -/
def deserialize_state (data : Json) : Except SyncError AppStateData :=
  match decAppState data with
  | Except.ok s => Except.ok s
  | Except.error e => Except.error (SyncError.Serialization e)

/-- An AppStateData exercising every entity kind, used as the codec witness. -/
def exData : AppStateData :=
  { sites := [("site1",
      ⟨"site1", "band", "Band Site", none, none, "u1", [], "dark",
        Json.obj [("accent", Json.str ("red"))], SiteStatus.Active, 4⟩)]
    shows := [("e1", exShowL), ("e2", exShowF2)]
    songs := [("sg1", exSongL)]
    photos := [("ph1", exPhotoL)]
    videos := [("v1", exVideoF)]
    posts := [("p1", exPostL)]
    users := [("u1", exUserF)]
    sync_status := SyncStatus.Failed ("boom")
    last_sync := some 99
    clock := 7 }

/-- A SyncError is a serialization error exactly when it is the
Serialization variant. -/
def SyncError.isSerialization : SyncError → Bool
  | SyncError.Serialization _ => true
  | _ => false

/-- HashMap::insert stores exactly the given record: the key now maps to the
value and every other key is untouched. -/
theorem mapInsert_writes (m : StrMap α) (k : String) (v : α) :
    WritesExactly m (mapInsert m k v) k v := by
  constructor
  · simp [mapInsert]
  · intro i hi
    simp [mapInsert, hi]

/-- HashMap::remove clears exactly the given key and touches no other. -/
theorem mapRemove_removes (m : StrMap α) (k : String) :
    RemovesExactly m (mapRemove m k) k := by
  constructor
  · simp [mapRemove]
  · intro i hi
    simp [mapRemove, hi]

/-- Replaying the same foreign collection through the LWW loop changes
nothing: a foreign record that already won cannot beat itself strictly, and a
record that lost keeps losing. -/
theorem lwwMerge_idem (ts : α → Int) (m o : StrMap α) :
    lwwMerge ts (lwwMerge ts m o) o = lwwMerge ts m o := by
  funext id
  simp only [lwwMerge]
  cases h1 : o id with
  | none => rfl
  | some v =>
    cases h2 : m id with
    | none => simp
    | some e =>
      by_cases h : ts v > ts e
      · simp [h]
      · simp [h]

/-- Replaying the same foreign collection through the overwrite loop changes
nothing. -/
theorem overwriteMerge_idem (m o : StrMap α) :
    overwriteMerge (overwriteMerge m o) o = overwriteMerge m o := by
  funext id
  simp only [overwriteMerge]
  cases h1 : o id <;> rfl

/-- The LWW loop is order-independent across two foreign collections as long
as records sharing an identifier either agree or have distinct timestamps. -/
theorem lwwMerge_comm (ts : α → Int) (m o1 o2 : StrMap α)
    (h : ∀ id v1 v2, o1 id = some v1 → o2 id = some v2 →
      v1 = v2 ∨ ts v1 ≠ ts v2) :
    lwwMerge ts (lwwMerge ts m o1) o2 = lwwMerge ts (lwwMerge ts m o2) o1 := by
  funext id
  simp only [lwwMerge]
  cases h1 : o1 id with
  | none =>
    cases h2 : o2 id with
    | none => rfl
    | some v2 => cases m id <;> rfl
  | some v1 =>
    cases h2 : o2 id with
    | none => cases m id <;> rfl
    | some v2 =>
      rcases h id v1 v2 h1 h2 with rfl | hne
      · rfl
      · cases h3 : m id with
        | none =>
          dsimp only
          split_ifs <;> first | rfl | omega
        | some e =>
          by_cases c1 : ts v1 > ts e <;> by_cases c2 : ts v2 > ts e <;>
            simp [c1, c2] <;>
            first
              | rfl
              | omega
              | (split_ifs <;> first | rfl | omega)

/-- C1: in AppState::merge, shows and posts follow last-writer-wins on the
record's own updated_at with strict greater-than: a foreign record present
under a shared identifier replaces the local one exactly when its updated_at
is strictly greater (so on ties the local record is kept unchanged), and a
foreign record whose identifier is absent locally is inserted. -/
theorem merge_lww_policy (l f : AppState) (now : Int) (id : String) :
    (∀ lv fv, l.shows id = some lv → f.shows id = some fv →
      (l.merge f now).shows id =
        if fv.updated_at > lv.updated_at then some fv else some lv) ∧
    (∀ lv fv, l.shows id = some lv → f.shows id = some fv →
      fv.updated_at = lv.updated_at → (l.merge f now).shows id = some lv) ∧
    (l.shows id = none → ∀ fv, f.shows id = some fv →
      (l.merge f now).shows id = some fv) ∧
    (∀ lv fv, l.posts id = some lv → f.posts id = some fv →
      (l.merge f now).posts id =
        if fv.updated_at > lv.updated_at then some fv else some lv) ∧
    (∀ lv fv, l.posts id = some lv → f.posts id = some fv →
      fv.updated_at = lv.updated_at → (l.merge f now).posts id = some lv) ∧
    (l.posts id = none → ∀ fv, f.posts id = some fv →
      (l.merge f now).posts id = some fv) := by
  refine ⟨?_, ?_, ?_, ?_, ?_, ?_⟩
  · intro lv fv hl hf
    simp [AppState.merge, lwwMerge, hl, hf]
  · intro lv fv hl hf htie
    simp [AppState.merge, lwwMerge, hl, hf, htie]
  · intro hl fv hf
    simp [AppState.merge, lwwMerge, hl, hf]
  · intro lv fv hl hf
    simp [AppState.merge, lwwMerge, hl, hf]
  · intro lv fv hl hf htie
    simp [AppState.merge, lwwMerge, hl, hf, htie]
  · intro hl fv hf
    simp [AppState.merge, lwwMerge, hl, hf]

/-- Witness for merge_lww_policy: on the concrete replicas, the newer foreign
show wins, the foreign-only show is inserted, and the tied post keeps the
local record. -/
theorem merge_lww_policy_witness :
    (exLocal.merge exForeign 0).shows ("e1") = some exShowF ∧
    (exLocal.merge exForeign 0).shows ("e2") = some exShowF2 ∧
    (exLocal.merge exForeign 0).posts ("p1") = some exPostL := by
  refine ⟨?_, ?_, ?_⟩
  · have h := (merge_lww_policy exLocal exForeign 0 ("e1")).1 exShowL exShowF rfl rfl
    simpa [exShowL, exShowF] using h
  · exact (merge_lww_policy exLocal exForeign 0 ("e2")).2.2.1 rfl exShowF2 rfl
  · exact (merge_lww_policy exLocal exForeign 0 ("p1")).2.2.2.2.1 exPostL exPostF
      rfl rfl rfl

/-- C2: merge is idempotent; re-applying the same foreign snapshot to the
already-merged replica reproduces the merged replica exactly (the wall-clock
read is the explicit `now` argument, identical across the two applications as
in the claim, which compares the results of the two calls). -/
theorem merge_idempotent (r s : AppState) (now : Int) :
    (r.merge s now).merge s now = r.merge s now := by
  simp only [AppState.merge]
  simp only [AppState.mk.injEq]
  refine ⟨?_, ?_, ?_, ?_, ?_, ?_, ?_, trivial, trivial, ?_⟩
  · exact lwwMerge_idem ..
  · exact lwwMerge_idem ..
  · exact overwriteMerge_idem ..
  · exact overwriteMerge_idem ..
  · exact overwriteMerge_idem ..
  · exact lwwMerge_idem ..
  · exact overwriteMerge_idem ..
  · rw [max_assoc, max_self]

/-- C3: in AppState::merge, songs, photos, videos and users are merged by
unconditional foreign overwrite: any record present in the foreign snapshot
lands in the result as-is (whatever the local replica held, with no timestamp
consulted), and identifiers absent from the foreign snapshot keep the local
record, so records unique to either side are kept. -/
theorem merge_overwrite_policy (l f : AppState) (now : Int) (id : String) :
    (∀ v, f.songs id = some v → (l.merge f now).songs id = some v) ∧
    (f.songs id = none → (l.merge f now).songs id = l.songs id) ∧
    (∀ v, f.photos id = some v → (l.merge f now).photos id = some v) ∧
    (f.photos id = none → (l.merge f now).photos id = l.photos id) ∧
    (∀ v, f.videos id = some v → (l.merge f now).videos id = some v) ∧
    (f.videos id = none → (l.merge f now).videos id = l.videos id) ∧
    (∀ v, f.users id = some v → (l.merge f now).users id = some v) ∧
    (f.users id = none → (l.merge f now).users id = l.users id) := by
  refine ⟨?_, ?_, ?_, ?_, ?_, ?_, ?_, ?_⟩ <;>
    first
      | (intro v hf; simp [AppState.merge, overwriteMerge, hf])
      | (intro hf; simp [AppState.merge, overwriteMerge, hf])

/-- Witness for merge_overwrite_policy: the shared song is overwritten by the
foreign record, local-only song and photo survive, and the foreign-only video
and the shared user land as the foreign records. -/
theorem merge_overwrite_policy_witness :
    (exLocal.merge exForeign 0).songs ("sg1") = some exSongF ∧
    (exLocal.merge exForeign 0).songs ("sgL") = some exSongOnlyL ∧
    (exLocal.merge exForeign 0).photos ("ph1") = some exPhotoL ∧
    (exLocal.merge exForeign 0).videos ("v1") = some exVideoF ∧
    (exLocal.merge exForeign 0).users ("u1") = some exUserF := by
  refine ⟨?_, ?_, ?_, ?_, ?_⟩
  · exact (merge_overwrite_policy exLocal exForeign 0 ("sg1")).1 exSongF rfl
  · have h := (merge_overwrite_policy exLocal exForeign 0 ("sgL")).2.1 rfl
    simpa using h
  · have h := (merge_overwrite_policy exLocal exForeign 0 ("ph1")).2.2.2.1 rfl
    simpa using h
  · exact (merge_overwrite_policy exLocal exForeign 0 ("v1")).2.2.2.2.1 exVideoF rfl
  · exact (merge_overwrite_policy exLocal exForeign 0 ("u1")).2.2.2.2.2.2.1 exUserF rfl

/-- C4: every mutation of src/state/src/lib.rs (add_show, update_show,
delete_show, add_song, update_song, add_photo, add_post) succeeds on any
starting replica, writes or removes exactly the given record in its own
collection while leaving every other collection untouched, increments the
replica clock by exactly 1, and sets sync_status to Pending unconditionally
(the starting replica, hence its prior status, is arbitrary). -/
theorem mutation_effects (st : AppState) (sh sh2 : Show) (did : String)
    (sg sg2 : Song) (ph : Photo) (po : BlogPost) :
    (∃ st1, st.add_show sh = Except.ok st1 ∧ st1.clock = st.clock + 1 ∧
      st1.sync_status = SyncStatus.Pending ∧
      WritesExactly st.shows st1.shows sh.id sh ∧ st1.sites = st.sites ∧
      st1.songs = st.songs ∧ st1.photos = st.photos ∧ st1.videos = st.videos ∧
      st1.posts = st.posts ∧ st1.users = st.users) ∧
    (∃ st1, st.update_show sh2 = Except.ok st1 ∧ st1.clock = st.clock + 1 ∧
      st1.sync_status = SyncStatus.Pending ∧
      WritesExactly st.shows st1.shows sh2.id sh2 ∧ st1.sites = st.sites ∧
      st1.songs = st.songs ∧ st1.photos = st.photos ∧ st1.videos = st.videos ∧
      st1.posts = st.posts ∧ st1.users = st.users) ∧
    (∃ st1, st.delete_show did = Except.ok st1 ∧ st1.clock = st.clock + 1 ∧
      st1.sync_status = SyncStatus.Pending ∧
      RemovesExactly st.shows st1.shows did ∧ st1.sites = st.sites ∧
      st1.songs = st.songs ∧ st1.photos = st.photos ∧ st1.videos = st.videos ∧
      st1.posts = st.posts ∧ st1.users = st.users) ∧
    (∃ st1, st.add_song sg = Except.ok st1 ∧ st1.clock = st.clock + 1 ∧
      st1.sync_status = SyncStatus.Pending ∧
      WritesExactly st.songs st1.songs sg.id sg ∧ st1.sites = st.sites ∧
      st1.shows = st.shows ∧ st1.photos = st.photos ∧ st1.videos = st.videos ∧
      st1.posts = st.posts ∧ st1.users = st.users) ∧
    (∃ st1, st.update_song sg2 = Except.ok st1 ∧ st1.clock = st.clock + 1 ∧
      st1.sync_status = SyncStatus.Pending ∧
      WritesExactly st.songs st1.songs sg2.id sg2 ∧ st1.sites = st.sites ∧
      st1.shows = st.shows ∧ st1.photos = st.photos ∧ st1.videos = st.videos ∧
      st1.posts = st.posts ∧ st1.users = st.users) ∧
    (∃ st1, st.add_photo ph = Except.ok st1 ∧ st1.clock = st.clock + 1 ∧
      st1.sync_status = SyncStatus.Pending ∧
      WritesExactly st.photos st1.photos ph.id ph ∧ st1.sites = st.sites ∧
      st1.shows = st.shows ∧ st1.songs = st.songs ∧ st1.videos = st.videos ∧
      st1.posts = st.posts ∧ st1.users = st.users) ∧
    (∃ st1, st.add_post po = Except.ok st1 ∧ st1.clock = st.clock + 1 ∧
      st1.sync_status = SyncStatus.Pending ∧
      WritesExactly st.posts st1.posts po.id po ∧ st1.sites = st.sites ∧
      st1.shows = st.shows ∧ st1.songs = st.songs ∧ st1.photos = st.photos ∧
      st1.videos = st.videos ∧ st1.users = st.users) := by
  refine ⟨⟨_, rfl, rfl, rfl, mapInsert_writes .., rfl, rfl, rfl, rfl, rfl, rfl⟩,
    ⟨_, rfl, rfl, rfl, mapInsert_writes .., rfl, rfl, rfl, rfl, rfl, rfl⟩,
    ⟨_, rfl, rfl, rfl, mapRemove_removes .., rfl, rfl, rfl, rfl, rfl, rfl⟩,
    ⟨_, rfl, rfl, rfl, mapInsert_writes .., rfl, rfl, rfl, rfl, rfl, rfl⟩,
    ⟨_, rfl, rfl, rfl, mapInsert_writes .., rfl, rfl, rfl, rfl, rfl, rfl⟩,
    ⟨_, rfl, rfl, rfl, mapInsert_writes .., rfl, rfl, rfl, rfl, rfl, rfl⟩,
    ⟨_, rfl, rfl, rfl, mapInsert_writes .., rfl, rfl, rfl, rfl, rfl, rfl⟩⟩

/-- Witness for mutation_effects: adding a show to the fresh replica yields
clock 1, status Pending, and the show stored under its id. -/
theorem mutation_effects_witness :
    (runMutation AppState.new (AppState.new.add_show exShowL)).clock =
      AppState.new.clock + 1 ∧
    (runMutation AppState.new (AppState.new.add_show exShowL)).sync_status =
      SyncStatus.Pending ∧
    (runMutation AppState.new (AppState.new.add_show exShowL)).shows ("e1") =
      some exShowL := by
  obtain ⟨⟨st1, heq, hclock, hstatus, hwrites, _⟩, _⟩ :=
    mutation_effects AppState.new exShowL exShowL ("x") exSongL exSongL exPhotoL exPostL
  rw [heq]
  refine ⟨hclock, hstatus, ?_⟩
  simpa using hwrites.1

/-- C5: the replica clock never decreases: each single lifecycle operation
(any mutation or a merge) leaves the clock at least as large, hence so does
any sequence of them, and a merge sets the clock to the maximum of the two
input clocks. -/
theorem clock_never_decreases :
    (∀ (r : AppState) (op : Op), r.clock ≤ (applyOp r op).clock) ∧
    (∀ (r : AppState) (ops : List Op), r.clock ≤ (applyOps r ops).clock) ∧
    (∀ (r other : AppState) (now : Int),
      (r.merge other now).clock = max r.clock other.clock) := by
  have hstep : ∀ (r : AppState) (op : Op), r.clock ≤ (applyOp r op).clock := by
    intro r op
    cases op with
    | mergeOp other now =>
      simp only [applyOp, AppState.merge]
      exact le_max_left ..
    | _ =>
      simp [applyOp, runMutation, AppState.add_show, AppState.update_show,
        AppState.delete_show, AppState.add_song, AppState.update_song,
        AppState.add_photo, AppState.add_post]
  refine ⟨hstep, ?_, fun r other now => rfl⟩
  intro r ops
  induction ops generalizing r with
  | nil => exact le_rfl
  | cons op rest ih =>
    exact le_trans (hstep r op) (ih (applyOp r op))

/-- C6: after any merge the clock is the maximum of the two input clocks, the
status is Synced, and last_sync holds the (non-null) merge timestamp. -/
theorem merge_metadata (l f : AppState) (now : Int) :
    (l.merge f now).clock = max l.clock f.clock ∧
    (l.merge f now).sync_status = SyncStatus.Synced ∧
    (l.merge f now).last_sync = some now ∧
    (l.merge f now).last_sync ≠ none :=
  ⟨rfl, rfl, rfl, by simp [AppState.merge]⟩

/-- Round trip for optional strings. -/
theorem decOptStr_enc (o : Option String) : decOptStr (encOptStr o) = Except.ok o := by
  cases o <;> rfl

/-- Round trip for optional integers. -/
theorem decOptInt_enc (o : Option Int) : decOptInt (encOptInt o) = Except.ok o := by
  cases o <;> rfl

/-- Element-wise round trip lifts to JSON arrays. -/
theorem decAll_enc (dec : Json → Except String α) (enc : α → Json)
    (h : ∀ v, dec (enc v) = Except.ok v) :
    ∀ xs : List α, decAll dec (xs.map enc) = Except.ok xs := by
  intro xs
  induction xs with
  | nil => rfl
  | cons a as ih => simp [decAll, h, ih]

/-- Round trip for string lists. -/
theorem decStrList_enc (xs : List String) : decStrList (encStrList xs) = Except.ok xs := by
  simp only [encStrList, decStrList]
  exact decAll_enc decStr Json.str (fun v => rfl) xs

/-- Round trip for ShowStatus. -/
theorem decShowStatus_enc (x : ShowStatus) : decShowStatus (encShowStatus x) = Except.ok x := by
  cases x <;> rfl

/-- Round trip for PostStatus. -/
theorem decPostStatus_enc (x : PostStatus) : decPostStatus (encPostStatus x) = Except.ok x := by
  cases x <;> rfl

/-- Round trip for SiteStatus. -/
theorem decSiteStatus_enc (x : SiteStatus) : decSiteStatus (encSiteStatus x) = Except.ok x := by
  cases x <;> rfl

/-- Round trip for UserStatus. -/
theorem decUserStatus_enc (x : UserStatus) : decUserStatus (encUserStatus x) = Except.ok x := by
  cases x <;> rfl

/-- Round trip for GalleryVisibility. -/
theorem decGalleryVisibility_enc (x : GalleryVisibility) :
    decGalleryVisibility (encGalleryVisibility x) = Except.ok x := by
  cases x <;> rfl

/-- Round trip for VideoSource. -/
theorem decVideoSource_enc (x : VideoSource) :
    decVideoSource (encVideoSource x) = Except.ok x := by
  cases x <;> rfl

/-- Round trip for Role. -/
theorem decRole_enc (x : Role) : decRole (encRole x) = Except.ok x := by
  cases x <;> rfl

/-- Round trip for SyncStatus. -/
theorem decSyncStatus_enc (x : SyncStatus) : decSyncStatus (encSyncStatus x) = Except.ok x := by
  cases x <;> rfl

/-- Round trip for the replica clock. -/
theorem decClock_enc (n : Clock) : decClock (Json.num (n : Int)) = Except.ok n := by
  simp [decClock]

/-- Round trip for ImageDimensions. -/
theorem decDims_enc (d : ImageDimensions) : decDims (encDims d) = Except.ok d := by
  rfl

/-- Round trip for Show records. -/
theorem decShow_enc (x : Show) : decShow (encShow x) = Except.ok x := by
  obtain ⟨f1, f2, f3, f4, f5, f6, f7, f8, f9, f10, f11, f12, f13⟩ := x
  simp [encShow, decShow, jLookup, decStr, decInt, decOptStr_enc, decShowStatus_enc]

/-- Round trip for Song records. -/
theorem decSong_enc (x : Song) : decSong (encSong x) = Except.ok x := by
  obtain ⟨f1, f2, f3, f4, f5, f6, f7, f8, f9, f10⟩ := x
  simp [encSong, decSong, jLookup, decStr, decInt, decBool, decOptStr_enc,
    decOptInt_enc, decStrList_enc]

/-- Round trip for Photo records. -/
theorem decPhoto_enc (x : Photo) : decPhoto (encPhoto x) = Except.ok x := by
  obtain ⟨f1, f2, f3, f4, f5, f6, f7, f8, f9, f10, f11, f12⟩ := x
  simp [encPhoto, decPhoto, jLookup, decStr, decInt, decOptStr_enc,
    decStrList_enc, decDims_enc]

/-- Round trip for Video records. -/
theorem decVideo_enc (x : Video) : decVideo (encVideo x) = Except.ok x := by
  obtain ⟨f1, f2, f3, f4, f5, f6, f7, f8, f9, f10⟩ := x
  simp [encVideo, decVideo, jLookup, decStr, decInt, decOptStr_enc,
    decOptInt_enc, decVideoSource_enc, decGalleryVisibility_enc]

/-- Round trip for BlogPost records. -/
theorem decPost_enc (x : BlogPost) : decPost (encPost x) = Except.ok x := by
  obtain ⟨f1, f2, f3, f4, f5, f6, f7, f8, f9, f10, f11, f12⟩ := x
  simp [encPost, decPost, jLookup, decStr, decInt, decOptStr_enc,
    decOptInt_enc, decPostStatus_enc]

/-- Round trip for Site records (config passes through unchanged). -/
theorem decSite_enc (x : Site) : decSite (encSite x) = Except.ok x := by
  obtain ⟨f1, f2, f3, f4, f5, f6, f7, f8, f9, f10, f11⟩ := x
  simp [encSite, decSite, jLookup, decStr, decInt, decOptStr_enc,
    decStrList_enc, decSiteStatus_enc]

/-- Round trip for User records. -/
theorem decUser_enc (x : User) : decUser (encUser x) = Except.ok x := by
  obtain ⟨f1, f2, f3, f4, f5, f6, f7⟩ := x
  simp [encUser, decUser, jLookup, decStr, decInt, decOptInt_enc,
    decUserStatus_enc, decAll_enc decRole encRole decRole_enc]

/-- Value-wise round trip lifts to map entry lists. -/
theorem decEntries_enc (dec : Json → Except String α) (enc : α → Json)
    (h : ∀ v, dec (enc v) = Except.ok v) :
    ∀ xs : List (String × α), decEntries dec (encEntries enc xs) = Except.ok xs := by
  intro xs
  induction xs with
  | nil => rfl
  | cons kv rest ih =>
    obtain ⟨k, v⟩ := kv
    show decEntries dec ((k, enc v) :: encEntries enc rest) = _
    simp [decEntries, h, ih]

/-- Round trip for the whole replica document. -/
theorem decAppState_enc (s : AppStateData) : decAppState (encAppState s) = Except.ok s := by
  obtain ⟨c1, c2, c3, c4, c5, c6, c7, c8, c9, c10⟩ := s
  simp [encAppState, decAppState, jLookup,
    decEntries_enc decSite encSite decSite_enc,
    decEntries_enc decShow encShow decShow_enc,
    decEntries_enc decSong encSong decSong_enc,
    decEntries_enc decPhoto encPhoto decPhoto_enc,
    decEntries_enc decVideo encVideo decVideo_enc,
    decEntries_enc decPost encPost decPost_enc,
    decEntries_enc decUser encUser decUser_enc,
    decSyncStatus_enc, decOptInt_enc, decClock_enc]

/-- C7 counterexample: merge outcome is NOT commutative in general for
timestamped kinds. Two snapshots carrying different shows under the same
identifier with equal updated_at (exShowA titled A and exShowB titled B, both
at timestamp 5) produce order-dependent results: whichever snapshot is merged
first wins the tie, because ties keep the record already present. -/
theorem merge_comm_counterexample :
    ((AppState.new.merge exS1 0).merge exS2 0).shows ("e1") ≠
      ((AppState.new.merge exS2 0).merge exS1 0).shows ("e1") := by
  decide

/-- C7 (amended): merge outcome is commutative for the timestamped kinds
(shows and posts) provided that, for every identifier present in both
snapshots, the two records either coincide or have distinct updated_at
values; under that proviso, merging s1 then s2 into r produces the same show
and post collections as merging s2 then s1. -/
theorem merge_comm_outcome (r s1 s2 : AppState) (t1 t2 : Int)
    (hshows : ∀ id v1 v2, s1.shows id = some v1 → s2.shows id = some v2 →
      v1 = v2 ∨ v1.updated_at ≠ v2.updated_at)
    (hposts : ∀ id v1 v2, s1.posts id = some v1 → s2.posts id = some v2 →
      v1 = v2 ∨ v1.updated_at ≠ v2.updated_at) :
    ((r.merge s1 t1).merge s2 t2).shows = ((r.merge s2 t1).merge s1 t2).shows ∧
    ((r.merge s1 t1).merge s2 t2).posts = ((r.merge s2 t1).merge s1 t2).posts := by
  constructor
  · simp only [AppState.merge]
    exact lwwMerge_comm Show.updated_at r.shows s1.shows s2.shows hshows
  · simp only [AppState.merge]
    exact lwwMerge_comm BlogPost.updated_at r.posts s1.posts s2.posts hposts

/-- Witness for merge_comm_outcome: two snapshots whose only shared show id
carries distinct timestamps (5 and 9) merge to the same collections in either
order. -/
theorem merge_comm_outcome_witness :
    ((AppState.new.merge exS1 0).merge exS3 0).shows =
      ((AppState.new.merge exS3 0).merge exS1 0).shows ∧
    ((AppState.new.merge exS1 0).merge exS3 0).posts =
      ((AppState.new.merge exS3 0).merge exS1 0).posts := by
  apply merge_comm_outcome
  · intro id v1 v2 h1 h2
    right
    by_cases hid : id = "e1"
    · subst hid
      simp [exS1, exS3] at h1 h2
      subst h1
      subst h2
      decide
    · simp [exS1, hid] at h1
  · intro id v1 v2 h1 h2
    simp [exS1, AppState.new] at h1

/-- C8: the codec round-trips exactly (deserializing the serialization of any
replica returns it unchanged; serialization is a total function of the
replica, so encoding a valid in-memory replica never fails), and every
failure deserialize_state can return is a Serialization error. -/
theorem codec_round_trip :
    (∀ s : AppStateData, deserialize_state (serialize_state s) = Except.ok s) ∧
    (∀ (j : Json) (e : SyncError), deserialize_state j = Except.error e →
      e.isSerialization = true) := by
  constructor
  · intro s
    simp [serialize_state, deserialize_state, decAppState_enc]
  · intro j e h
    simp only [deserialize_state] at h
    cases hd : decAppState j with
    | ok s =>
      rw [hd] at h
      cases h
    | error m =>
      rw [hd] at h
      injection h with h2
      rw [← h2]
      rfl

/-- Witness for codec_round_trip: the replica exData, which holds at least
one entity of every kind (with empty optional fields among them), survives
the round trip, and decoding a malformed document yields a Serialization
error. -/
theorem codec_round_trip_witness :
    deserialize_state (serialize_state exData) = Except.ok exData ∧
    (SyncError.Serialization ("expected AppState object")).isSerialization = true :=
  ⟨codec_round_trip.1 exData,
    codec_round_trip.2 (Json.str ("junk"))
      (SyncError.Serialization ("expected AppState object")) rfl⟩

/-- C9 counterexample: deleting an identifier absent from the show collection
is NOT a no-op on the replica: on the fresh replica (clock 0) it returns a
replica with clock 1, so the result differs from the input. -/
theorem delete_nonexistent_changes_state :
    AppState.new.delete_show ("x") ≠ Except.ok AppState.new := by
  intro h
  have h2 := congrArg (fun e => match e with
    | Except.ok s => s.clock
    | Except.error _ => 0) h
  simp [AppState.delete_show, AppState.new] at h2

/-- C9 (amended): deleting an identifier absent from the show collection is
not an error and leaves every collection unchanged — and deleting it again
still leaves the show collection unchanged — but it is not a no-op on the
whole replica: each call still increments the clock by 1 and sets
sync_status to Pending. -/
theorem delete_missing_show (r : AppState) (id : String)
    (h : r.shows id = none) :
    ∃ st1, r.delete_show id = Except.ok st1 ∧
      st1.shows = r.shows ∧ st1.sites = r.sites ∧ st1.songs = r.songs ∧
      st1.photos = r.photos ∧ st1.videos = r.videos ∧ st1.posts = r.posts ∧
      st1.users = r.users ∧ st1.clock = r.clock + 1 ∧
      st1.sync_status = SyncStatus.Pending ∧
      ∃ st2, st1.delete_show id = Except.ok st2 ∧ st2.shows = r.shows := by
  have hrem : mapRemove r.shows id = r.shows := by
    funext i
    by_cases hi : i = id
    · subst hi
      simp [mapRemove, h]
    · simp [mapRemove, hi]
  refine ⟨_, rfl, hrem, rfl, rfl, rfl, rfl, rfl, rfl, rfl, rfl, _, rfl, ?_⟩
  show mapRemove (mapRemove r.shows id) id = r.shows
  rw [hrem, hrem]

/-- Witness for delete_missing_show: deleting the absent id x from the fresh
replica keeps the (empty) show collection but bumps the clock and marks the
replica Pending. -/
theorem delete_missing_show_witness :
    AppState.new.shows ("x") = none ∧
    (runMutation AppState.new (AppState.new.delete_show ("x"))).shows =
      AppState.new.shows ∧
    (runMutation AppState.new (AppState.new.delete_show ("x"))).clock =
      AppState.new.clock + 1 ∧
    (runMutation AppState.new (AppState.new.delete_show ("x"))).sync_status =
      SyncStatus.Pending := by
  obtain ⟨st1, heq, hshows, _, _, _, _, _, _, hclock, hstatus, _⟩ :=
    delete_missing_show AppState.new ("x") rfl
  rw [heq]
  exact ⟨rfl, hshows, hclock, hstatus⟩

/-- C10: merge keeps no tombstones: any identifier present in the foreign
show collection is present in the merged show collection; in particular a
show deleted locally (so absent after delete_show) reappears after merging a
foreign snapshot that still carries a record under that identifier. -/
theorem merge_no_tombstones (r s : AppState) (now : Int) (id : String)
    (v : Show) (hs : s.shows id = some v) :
    ((r.merge s now).shows id).isSome = true ∧
    (runMutation r (r.delete_show id)).shows id = none ∧
    (((runMutation r (r.delete_show id)).merge s now).shows id).isSome = true := by
  have hsome : ∀ (m : StrMap Show),
      (lwwMerge Show.updated_at m s.shows id).isSome = true := by
    intro m
    simp only [lwwMerge, hs]
    cases m id with
    | none => rfl
    | some e => by_cases c : v.updated_at > e.updated_at <;> simp [c]
  refine ⟨hsome r.shows, ?_, hsome _⟩
  simp [runMutation, AppState.delete_show, mapRemove]

/-- Witness for merge_no_tombstones: the show e1, removed locally by
delete_show, is back (present) after merging the foreign snapshot that still
contains it. -/
theorem merge_no_tombstones_witness :
    ((exLocal.merge exForeign 0).shows ("e1")).isSome = true ∧
    (runMutation exLocal (exLocal.delete_show ("e1"))).shows ("e1") = none ∧
    (((runMutation exLocal (exLocal.delete_show ("e1"))).merge exForeign 0).shows
      ("e1")).isSome = true :=
  merge_no_tombstones exLocal exForeign 0 ("e1") exShowF rfl
